import Mathlib

/-!
Verification development for the ANPR video-detection job pipeline.

Shallow embedding of the worker core:
  * `normalize_plate`      — src/services/detector_adapter.py (also duplicated in each detector)
  * `NpArray` and friends  — the numpy-array facts the code inspects (ndim, shape, min, max, slicing)
  * `extract_real_crop`    — src/detectors/mock_detector.py  MockDetector._extract_real_crop
  * `mock_process_video`   — src/detectors/mock_detector.py  MockDetector.process_video
  * `yolo_process_frame`   — src/detectors/yolo_easyocr_ffmpeg.py  YOLOEasyOCRFFmpegDetector._process_frame
  * `remote_mk_detection`  — src/detectors/remote_inference.py  RemoteInferenceDetector.process_video body
  * `get_detector`         — src/services/detector_adapter.py  get_detector
  * `adapter_filter`       — src/services/detector_adapter.py  DetectorAdapter.process_video
  * `save_event`, `check_bolos`, `process_job` — src/worker.py
External effects (randomness, the YOLO model, EasyOCR, ffmpeg decode results, HTTP
responses, queue payloads) are inputs to the embedded functions; machine floats are
modelled as rationals (only compared, never rounded, by the embedded code).
-/

namespace ANPR

/-- Python `str.upper()` restricted to ASCII (the only characters that survive the
`[^A-Z0-9]` filter below come from ASCII anyway). -/
def upperChar (c : Char) : Char :=
  if 97 ≤ c.toNat ∧ c.toNat ≤ 122 then Char.ofNat (c.toNat - 32) else c

/-- Is the character in `[A-Z0-9]` (the class kept by `re.sub(r'[^A-Z0-9]', '', …)`). -/
def isPlateChar (c : Char) : Bool :=
  (65 ≤ c.toNat && c.toNat ≤ 90) || (48 ≤ c.toNat && c.toNat ≤ 57)

/-- `normalize_plate` from src/services/detector_adapter.py:
`re.sub(r'[^A-Z0-9]', '', plate.upper())`. -/
def normalize_plate (s : String) : String :=
  String.mk ((s.data.map upperChar).filter isPlateChar)

/-- A numpy array as the code observes it: the detector pipeline only ever builds
2-D (grayscale) or 3-D (rows × cols × channels) `uint8` arrays. -/
inductive NpArray where
  | nd2 (rows : List (List Nat))
  | nd3 (rows : List (List (List Nat)))
deriving DecidableEq, Repr

/-- `a.ndim`. -/
def NpArray.ndim : NpArray → Nat
  | .nd2 _ => 2
  | .nd3 _ => 3

/-- `a.shape[0]`. -/
def NpArray.shape0 : NpArray → Nat
  | .nd2 rows => rows.length
  | .nd3 rows => rows.length

/-- `a.shape[1]` (numpy arrays are rectangular; row 0 is representative). -/
def NpArray.shape1 : NpArray → Nat
  | .nd2 rows => (rows.headD []).length
  | .nd3 rows => (rows.headD []).length

/-- `a.shape[2]` of a 3-D array (0 for 2-D arrays, whose code paths never read it). -/
def NpArray.channels : NpArray → Nat
  | .nd2 _ => 0
  | .nd3 rows => ((rows.headD []).headD []).length

/-- All scalar entries of the array. -/
def NpArray.flat : NpArray → List Nat
  | .nd2 rows => rows.flatten
  | .nd3 rows => (rows.map List.flatten).flatten

/-- `a.size` (number of scalar entries). -/
def NpArray.size (a : NpArray) : Nat := a.flat.length

/-- `a.min()` (the embedded code only calls it on nonempty arrays; 0 on empty). -/
def NpArray.npMin (a : NpArray) : Nat :=
  match a.flat with
  | [] => 0
  | x :: xs => xs.foldl Nat.min x

/-- `a.max()` (0 on empty, see `npMin`). -/
def NpArray.npMax (a : NpArray) : Nat :=
  match a.flat with
  | [] => 0
  | x :: xs => xs.foldl Nat.max x

/-- Python slice `l[i:j]` for `0 ≤ i, j`. -/
def pySlice (l : List α) (i j : Nat) : List α := (l.take j).drop i

/-- `a[y1:y2, x1:x2]`. -/
def NpArray.slice (a : NpArray) (y1 y2 x1 x2 : Nat) : NpArray :=
  match a with
  | .nd2 rows => .nd2 ((pySlice rows y1 y2).map (fun r => pySlice r x1 x2))
  | .nd3 rows => .nd3 ((pySlice rows y1 y2).map (fun r => pySlice r x1 x2))

/-- A numpy array is rectangular: every row has the nominal width and (for 3-D)
every pixel has the nominal channel count. -/
def NpArray.rect : NpArray → Bool
  | .nd2 rows => rows.all (fun r => r.length == (rows.headD []).length)
  | .nd3 rows => rows.all (fun r =>
      r.length == (rows.headD []).length &&
      r.all (fun p => p.length == ((rows.headD []).headD []).length))

/-- Bounding box as produced by the detectors (`{"x1": …, "y1": …, "x2": …, "y2": …}`). -/
structure BBox where
  x1 : Int
  y1 : Int
  x2 : Int
  y2 : Int
deriving DecidableEq, Repr

/-- A raw detection dict as yielded by the backends.  All embedded backends set every
key, so the record is total; `bbox` is `none` for the remote backend's `.get("bbox", {})`
default.  Confidences are Python floats that the code only compares, embedded as ℚ. -/
structure Detection where
  plate : String
  normalized_plate : String
  confidence : ℚ
  bbox : Option BBox
  frame_no : Nat
  captured_at : Nat
  crop : Option NpArray
  frame : Option NpArray
  camera_id : Option String
deriving DecidableEq, Repr

/-- Upload status enum from src/models/upload.py as used by the worker. -/
inductive UploadStatus where
  | PENDING
  | PROCESSING
  | DONE
  | FAILED
deriving DecidableEq, Repr

/-- The Upload row fields the worker reads or writes. -/
structure Upload where
  id : Nat
  camera_id : Option String
  status : UploadStatus
  started_at : Option Nat
  completed_at : Option Nat
  events_detected : Nat
  error_message : Option String
deriving DecidableEq, Repr

/-- Review state of a persisted Event (the worker always writes UNREVIEWED). -/
inductive ReviewState where
  | UNREVIEWED
deriving DecidableEq, Repr

/-- The Event row as created by `save_event` in src/worker.py. -/
structure Event where
  id : Nat
  upload_id : Nat
  camera_id : Option String
  plate : String
  normalized_plate : String
  confidence : ℚ
  bbox : Option BBox
  frame_no : Nat
  captured_at : Nat
  crop_path : Option String
  review_state : ReviewState
deriving DecidableEq, Repr

/-- A watchlist ("BOLO") entry as read by `check_bolos`. -/
structure BOLO where
  id : Nat
  plate_pattern : String
  active : Bool
  expires_at : Option Nat
  notification_webhook : Option String
deriving DecidableEq, Repr

/-- A watchlist match row (`BOLOMatch(bolo_id=…, event_id=…)`). -/
structure BOLOMatch where
  bolo_id : Nat
  event_id : Nat
deriving DecidableEq, Repr

/-! ### Regex matching (`re.search(pattern, text, re.IGNORECASE)` in `check_bolos`)

The worker matches `plate_pattern` with `re.search` under `re.IGNORECASE`.  We embed
the fragment of Python regex the watchlist patterns use: literal characters, `.`
(any character) and the `*` repeat.  Patterns using other metacharacters fall outside
the embedding (`parseRegex` returns `none`, and the theorems about matching carry a
parseability hypothesis). -/

/-- Regular expressions over characters (empty language, empty string, literal,
wildcard, alternation, concatenation, Kleene star). -/
inductive Regex where
  | emp
  | eps
  | ch (c : Char)
  | any
  | alt (a b : Regex)
  | seqR (a b : Regex)
  | star (a : Regex)
deriving DecidableEq, Repr

/-- Does the regex accept the empty string? -/
def Regex.nullable : Regex → Bool
  | .emp => false
  | .eps => true
  | .ch _ => false
  | .any => false
  | .alt a b => a.nullable || b.nullable
  | .seqR a b => a.nullable && b.nullable
  | .star _ => true

/-- Case-insensitive character comparison (`re.IGNORECASE`). -/
def cieq (a b : Char) : Bool := upperChar a == upperChar b

/-- Brzozowski derivative of a regex by a character (case-insensitive on literals). -/
def Regex.deriv : Regex → Char → Regex
  | .emp, _ => .emp
  | .eps, _ => .emp
  | .ch c, x => if cieq c x then .eps else .emp
  | .any, _ => .eps
  | .alt a b, x => .alt (a.deriv x) (b.deriv x)
  | .seqR a b, x => if a.nullable then .alt (.seqR (a.deriv x) b) (b.deriv x) else .seqR (a.deriv x) b
  | .star a, x => .seqR (a.deriv x) (.star a)

/-- Does the regex match some (possibly empty) leading segment of the text? -/
def matchHere : Regex → List Char → Bool
  | r, [] => r.nullable
  | r, c :: cs => r.nullable || matchHere (r.deriv c) cs

/-- `re.search` semantics: the regex matches starting at some position of the text. -/
def searchAnywhere : Regex → List Char → Bool
  | r, [] => r.nullable
  | r, c :: cs => matchHere r (c :: cs) || searchAnywhere r cs

/-- Code points of the regex metacharacters our pattern fragment does not cover
(plus `*`, which is only legal as a postfix repeat): `( ) [ ] { } ? + | ^ $ \ *`. -/
def regexMeta : List Nat := [40, 41, 91, 93, 123, 125, 63, 43, 124, 94, 36, 92, 42]

/-- A character standing for itself (or `.` for the wildcard) in a pattern. -/
def isLit (c : Char) : Bool := !(regexMeta.contains c.toNat)

/-- The atom a pattern character denotes. -/
def mkAtom (c : Char) : Regex := if c = '.' then .any else .ch c

/-- Parse a pattern into its atom sequence, applying postfix `*` to the preceding atom. -/
def parseAtoms : List Char → Option (List Regex)
  | [] => some []
  | c :: '*' :: rest =>
      if isLit c then (parseAtoms rest).map (fun l => Regex.star (mkAtom c) :: l) else none
  | c :: rest =>
      if isLit c then (parseAtoms rest).map (fun l => mkAtom c :: l) else none

/-- Parse a watchlist pattern (the supported regex fragment). -/
def parseRegex (s : String) : Option Regex :=
  (parseAtoms s.data).map (fun l => l.foldr Regex.seqR Regex.eps)

/-- `re.search(pattern, text, re.IGNORECASE) is not None`, for patterns in the
supported fragment (`false` outside it; the matching theorems assume parseability). -/
def regex_search (pattern text : String) : Bool :=
  match parseRegex pattern with
  | some r => searchAnywhere r text.data
  | none => false

/-! ### Mock detector (src/detectors/mock_detector.py) -/

/-- `MockDetector._extract_real_crop`: validate the frame, clamp the bbox to frame
bounds, reject crops with clamped width or height below 5, else slice the crop. -/
def extract_real_crop (frame : NpArray) (bbox : BBox) : Option NpArray :=
  if frame.ndim ≠ 3 ∨ frame.channels ≠ 3 then none
  else
    let h : Int := frame.shape0
    let w : Int := frame.shape1
    if h ≤ 0 ∨ w ≤ 0 then none
    else
      let x1 := max 0 (min bbox.x1 (w - 1))
      let y1 := max 0 (min bbox.y1 (h - 1))
      let x2 := max 0 (min bbox.x2 w)
      let y2 := max 0 (min bbox.y2 h)
      if x2 - x1 < 5 ∨ y2 - y1 < 5 then none
      else some (frame.slice y1.toNat y2.toNat x1.toNat x2.toNat)

/-- One planned iteration of `MockDetector.process_video`'s loop: the random choices
(plate text, confidence) and the external decode result (the frame, or `None` when
both cv2 and the ffmpeg fallback fail) together with the generated bbox. -/
structure MockPlan where
  plate : String
  confidence : ℚ
  frame : Option NpArray
  bbox : BBox
  frame_no : Nat
  captured_at : Nat
deriving DecidableEq, Repr

/-- One loop iteration of `MockDetector.process_video`: with no frame the crop stays
`None`; otherwise the crop is extracted and validated; a detection with no valid crop
is skipped (`continue`), not yielded. -/
def mock_step (cam : Option String) (p : MockPlan) : Option Detection :=
  match p.frame with
  | none => none
  | some f =>
    match extract_real_crop f p.bbox with
    | none => none
    | some c =>
        some { plate := p.plate
               normalized_plate := normalize_plate p.plate
               confidence := p.confidence
               bbox := some p.bbox
               frame_no := p.frame_no
               captured_at := p.captured_at
               crop := some c
               frame := some f
               camera_id := cam }

/-- `MockDetector.process_video` as the sequence of detections it yields. -/
def mock_process_video (plans : List MockPlan) (cam : Option String) : List Detection :=
  plans.filterMap (mock_step cam)

/-! ### YOLO + EasyOCR + ffmpeg detector (src/detectors/yolo_easyocr_ffmpeg.py) -/

/-- One YOLO box: coordinates from `box.xyxy[0]` (as ints) and `box.conf[0]`. -/
structure YoloBox where
  x1 : Int
  y1 : Int
  x2 : Int
  y2 : Int
  conf : ℚ
deriving DecidableEq, Repr

/-- The configuration of `YOLOEasyOCRFFmpegDetector` the frame loop reads. -/
structure YoloFfmpegCfg where
  confidence_threshold : ℚ
  min_box_width : Int
  min_box_height : Int
deriving Repr

/-- Python `str.strip()` (whitespace trim). -/
def pyStrip (s : String) : String :=
  String.mk (((s.data.dropWhile Char.isWhitespace).reverse.dropWhile Char.isWhitespace).reverse)

/-- Python `str.upper()` on a whole string (ASCII, see `upperChar`). -/
def pyUpper (s : String) : String := String.mk (s.data.map upperChar)

/-- `YOLOEasyOCRFFmpegDetector._run_ocr`: non-3-channel crops short-circuit to
`"UNREAD"`; otherwise the external EasyOCR reader's results (text, confidence
pairs) are reduced with `max(…, key=conf)`, stripped and upper-cased, with empty
results mapping to `"UNREAD"`. -/
def run_ocr (reader : NpArray → List (String × ℚ)) (crop : NpArray) : String :=
  if crop.ndim = 3 ∧ crop.channels = 3 then
    match reader crop with
    | [] => "UNREAD"
    | r :: rs =>
        let best := rs.foldl (fun acc x => if acc.2 < x.2 then x else acc) r
        let cleaned := pyUpper (pyStrip best.1)
        if cleaned = "" then "UNREAD" else cleaned
  else "UNREAD"

/-- One box of `YOLOEasyOCRFFmpegDetector._process_frame`: confidence and minimum
box-size filters, 5-pixel padded crop clamped to the frame, empty-crop skip, OCR,
then the detection dict (note: it has no `"frame"` key). -/
def yolo_det_of_box (cfg : YoloFfmpegCfg) (frame : NpArray)
    (reader : NpArray → List (String × ℚ)) (frame_no : Nat) (cam : Option String)
    (now : Nat) (box : YoloBox) : Option Detection :=
  if box.conf < cfg.confidence_threshold then none
  else if box.x2 - box.x1 < cfg.min_box_width ∨ box.y2 - box.y1 < cfg.min_box_height then none
  else
    let h : Int := frame.shape0
    let w : Int := frame.shape1
    let x1p := max 0 (box.x1 - 5)
    let y1p := max 0 (box.y1 - 5)
    let x2p := min w (box.x2 + 5)
    let y2p := min h (box.y2 + 5)
    let crop := frame.slice y1p.toNat y2p.toNat x1p.toNat x2p.toNat
    if crop.size = 0 then none
    else
      let plate := run_ocr reader crop
      some { plate := plate
             normalized_plate := normalize_plate plate
             confidence := box.conf
             bbox := some { x1 := box.x1, y1 := box.y1, x2 := box.x2, y2 := box.y2 }
             frame_no := frame_no
             captured_at := now
             crop := some crop
             frame := none
             camera_id := cam }

/-- `YOLOEasyOCRFFmpegDetector._process_frame` over the model's boxes for one frame. -/
def yolo_process_frame (cfg : YoloFfmpegCfg) (frame : NpArray) (boxes : List YoloBox)
    (reader : NpArray → List (String × ℚ)) (frame_no : Nat) (cam : Option String)
    (now : Nat) : List Detection :=
  boxes.filterMap (yolo_det_of_box cfg frame reader frame_no cam now)

/-! ### Remote inference detector (src/detectors/remote_inference.py) -/

/-- One entry of the remote service's `detections_by_frame` lists (every field read
with `.get`, hence optional; `bbox`'s dict default is `none` here). -/
structure RemoteDetData where
  plate : Option String
  confidence : Option ℚ
  bbox : Option BBox
  normalized_plate : Option String
deriving DecidableEq, Repr

/-- The detection dict `RemoteInferenceDetector.process_video` yields for one remote
entry: `crop=None`, `frame=None`, and `normalized_plate` taken from the remote
response when truthy (`… or normalize_plate(plate)`). -/
def remote_mk_detection (dd : RemoteDetData) (frame_idx : Nat) (now : Nat)
    (cam : Option String) : Detection :=
  let plate := dd.plate.getD ""
  { plate := plate
    normalized_plate :=
      match dd.normalized_plate with
      | some np => if np = "" then normalize_plate plate else np
      | none => normalize_plate plate
    confidence := dd.confidence.getD 0
    bbox := dd.bbox
    frame_no := frame_idx
    captured_at := now
    crop := none
    frame := none
    camera_id := cam }

/-! ### Backend selection (src/services/detector_adapter.py  get_detector)

`get_detector` wraps only the `import` of each backend module in `try/except`;
the detector object itself (and, for the remote backend, its `/health` fail-fast
check) is constructed inside the module-level `process_video` *generator*, whose
body only runs at the first iteration — i.e. inside `process_job`'s `try`. -/

/-- Which backend module imports succeed (an import fails when an optional ML
dependency is missing). -/
structure ImportEnv where
  yoloAdapterImportOk : Bool
  yoloFfmpegImportOk : Bool
  remoteImportOk : Bool
deriving DecidableEq, Repr

/-- The `process_video` callable `get_detector` returns. -/
inductive ChosenBackend where
  | yoloAdapter
  | yoloFfmpeg
  | remoteHttp
  | mock
deriving DecidableEq, Repr

/-- `get_detector`: unknown names fall back to mock; a failing *import* of the
preferred module falls back to mock.  Nothing else is caught here. -/
def get_detector (backend : String) (env : ImportEnv) : ChosenBackend :=
  if backend = "yolo" then
    (if env.yoloAdapterImportOk then .yoloAdapter else .mock)
  else if backend = "yolo_ffmpeg" then
    (if env.yoloFfmpegImportOk then .yoloFfmpeg else .mock)
  else if backend = "remote" then
    (if env.remoteImportOk then .remoteHttp else .mock)
  else .mock

/-- An item of a backend's detection generator as the worker consumes it: either a
yielded detection or an exception raised at that point of the iteration. -/
inductive StreamItem where
  | det (d : Detection)
  | err (msg : String)
deriving DecidableEq, Repr

/-- Iterating the remote backend's generator: `RemoteInferenceDetector.__init__`
runs at the first `next()`, raising when `REMOTE_INFERENCE_URL` is unset, and
`_verify_health` raises unless `GET /health` returns 200 within the timeout
(`health = none` models a timeout or connection error). -/
def remote_stream (url : String) (health : Option Nat) (body : List StreamItem) :
    List StreamItem :=
  if url = "" then [.err "REMOTE_INFERENCE_URL must be set for remote backend"]
  else
    match health with
    | some code =>
        if code = 200 then body
        else [.err ("Remote inference service health check failed: " ++ toString code)]
    | none => [.err "Remote inference service not reachable (timeout after 3s)"]

/-- What iterating the chosen backend's generator produces, given each backend's
potential output. -/
def backend_stream (c : ChosenBackend) (remoteUrl : String) (health : Option Nat)
    (remoteBody yoloBody yoloFfmpegBody mockBody : List StreamItem) : List StreamItem :=
  match c with
  | .remoteHttp => remote_stream remoteUrl health remoteBody
  | .yoloAdapter => yoloBody
  | .yoloFfmpeg => yoloFfmpegBody
  | .mock => mockBody

/-! ### Detector adapter filter (src/services/detector_adapter.py  DetectorAdapter.process_video) -/

/-- The adapter's generator: forwards each detection whose confidence passes the
global threshold (`detection.get("confidence", 0) >= threshold`; every embedded
backend sets the key) and drops the rest.  The `camera_id`/`captured_at` backfill
is the identity for the embedded backends, which always set both keys.  An
exception raised by the underlying generator propagates at that point, so nothing
after it is ever produced. -/
def adapter_filter (t : ℚ) : List StreamItem → List StreamItem
  | [] => []
  | .err m :: _ => [.err m]
  | .det d :: rest =>
      if t ≤ d.confidence then .det d :: adapter_filter t rest else adapter_filter t rest

/-! ### Event persistence (src/worker.py  save_event) -/

/-- The diagnostics `save_event` logs while validating a crop. -/
inductive CropDiag where
  | invalid_type
  | invalid_shape
  | too_small
  | solid_color
deriving DecidableEq, Repr

/-- The crop-validation chain of `save_event`: a missing or non-array crop, a
non-3-channel array, or one smaller than 5×5 nulls the crop path (the detection is
still persisted); a solid-color crop (min == max) is kept but flagged. -/
def crop_path_for (c : Option NpArray) (freshPath : String) : Option String × List CropDiag :=
  match c with
  | none => (none, [.invalid_type])
  | some a =>
      if a.ndim ≠ 3 then (none, [.invalid_shape])
      else if a.channels ≠ 3 then (none, [.invalid_shape])
      else if a.shape0 < 5 then (none, [.too_small])
      else if a.shape1 < 5 then (none, [.too_small])
      else if a.npMin = a.npMax then (some freshPath, [.solid_color])
      else (some freshPath, [])

/-- `save_event`: validate/upload the crop, then unconditionally create and commit
the Event row (crop-less when validation nulled the path).  `camera_id` falls back
to the upload's camera on a falsy detection value; `eid` stands for the
database-generated id, `freshPath` for `crops/{upload_id}/{uuid4()}.jpg`. -/
def save_event (u : Upload) (d : Detection) (eid : Nat) (freshPath : String) :
    Event × List CropDiag :=
  ({ id := eid
     upload_id := u.id
     camera_id :=
       match d.camera_id with
       | some c => if c = "" then u.camera_id else some c
       | none => u.camera_id
     plate := d.plate
     normalized_plate := d.normalized_plate
     confidence := d.confidence
     bbox := d.bbox
     frame_no := d.frame_no
     captured_at := d.captured_at
     crop_path := (crop_path_for d.crop freshPath).1
     review_state := .UNREVIEWED },
   (crop_path_for d.crop freshPath).2)

/-! ### Watchlist matching (src/worker.py  check_bolos, send_bolo_notification) -/

/-- `bolo.expires_at and bolo.expires_at < datetime.utcnow()`. -/
def bolo_expired (b : BOLO) (now : Nat) : Bool :=
  match b.expires_at with
  | some t => t < now
  | none => false

/-- `if bolo.notification_webhook:` — truthy means present and nonempty. -/
def webhook_set (b : BOLO) : Bool :=
  match b.notification_webhook with
  | some u => u ≠ ""
  | none => false

/-- The entries of the `check_bolos` loop that reach the match-creation branch:
queried as `active == True`, not skipped as expired, pattern matching the event's
normalized plate. -/
def bolos_matched (bolos : List BOLO) (e : Event) (now : Nat) : List BOLO :=
  ((bolos.filter (fun b => b.active)).filter
      (fun b => !(bolo_expired b now))).filter
      (fun b => regex_search b.plate_pattern e.normalized_plate)

/-- `check_bolos`: load the `active == True` entries, skip expired ones, and for each
whose pattern matches the event's `normalized_plate` create one `BOLOMatch` and call
`send_bolo_notification`.  Returns the created matches and the entries for which a
webhook POST is attempted (the notification body only POSTs when the webhook is
truthy). -/
def check_bolos (bolos : List BOLO) (e : Event) (now : Nat) :
    List BOLOMatch × List BOLO :=
  ((bolos_matched bolos e now).map (fun b => { bolo_id := b.id, event_id := e.id }),
   (bolos_matched bolos e now).filter webhook_set)

/-- `send_bolo_notification`: the whole body is wrapped in `try/except`, so a failed
POST only produces a log line — nothing escapes.  `postOk` is the outcome of the
(external) HTTP POST. -/
def send_bolo_notification (b : BOLO) (postOk : Bool) : List String :=
  if webhook_set b then
    (if postOk then ["BOLO webhook sent"] else ["Failed to send BOLO notification"])
  else []

/-! ### Job processing (src/worker.py  process_job) -/

/-- The detections the worker's `for detection in …` loop consumes before the
generator either finishes or raises: the detections before the first error, and
the error message if one occurs. -/
def detsUntilErr : List StreamItem → List Detection × Option String
  | [] => ([], none)
  | .err m :: _ => ([], some m)
  | .det d :: rest => ((d :: (detsUntilErr rest).1), (detsUntilErr rest).2)

/-- `crops/{upload_id}/{uuid}.jpg` (the uuid modelled by the event counter). -/
def path_for (uid eid : Nat) : String :=
  "crops/" ++ toString uid ++ "/" ++ toString eid ++ ".jpg"

/-- The Events committed (one commit each) for the consumed detections, ids counted
from `eid`. -/
def events_for (u : Upload) : Nat → List Detection → List Event
  | _, [] => []
  | eid, d :: ds => (save_event u d eid (path_for u.id eid)).1 :: events_for u (eid + 1) ds

/-- `process_job` marks the upload PROCESSING and stamps `started_at` (committed
immediately). -/
def mark_processing (u : Upload) (tStart : Nat) : Upload :=
  { u with status := .PROCESSING, started_at := some tStart }

/-- Everything one `process_job` run produces: the final committed upload row, the
Events committed along the way, the watchlist matches, the bolo-ids of attempted
webhook POSTs, the notification log lines, and the sequence of `status` values
committed (in order). -/
structure JobResult where
  upload : Option Upload
  newEvents : List Event
  boloMatches : List BOLOMatch
  attempts : List Nat
  notifLogs : List String
  statusTrace : List UploadStatus
deriving Repr

/-- `process_job`: look up the upload (absent → silently abandon); mark PROCESSING;
resolve the video (`download` is the outcome of `download_video`); stream the
adapter-filtered detections, committing an Event and running watchlist matching for
each; on exhaustion mark DONE and record `events_detected`; on any exception mark
FAILED with the message (leaving `events_detected` untouched).  `post i` is the
outcome of the i-th webhook POST of the run. -/
def process_job (u? : Option Upload) (download : Except String String)
    (raw : List StreamItem) (t : ℚ) (bolos : List BOLO) (now tStart tEnd : Nat)
    (post : Nat → Bool) : JobResult :=
  match u? with
  | none =>
      { upload := none, newEvents := [], boloMatches := [], attempts := [],
        notifLogs := [], statusTrace := [] }
  | some u0 =>
      let u1 := mark_processing u0 tStart
      match download with
      | .error e =>
          { upload := some { u1 with
              status := .FAILED,
              error_message := some e,
              completed_at := some tEnd },
            newEvents := [], boloMatches := [], attempts := [], notifLogs := [],
            statusTrace := [.PROCESSING, .FAILED] }
      | .ok _path =>
          let consumed := detsUntilErr (adapter_filter t raw)
          let evs := events_for u1 0 consumed.1
          let ms := (evs.map (fun e => (check_bolos bolos e now).1)).flatten
          let nbs := (evs.map (fun e => (check_bolos bolos e now).2)).flatten
          let logs := (nbs.enum.map
            (fun ib => send_bolo_notification ib.2 (post ib.1))).flatten
          match consumed.2 with
          | some m =>
              { upload := some { u1 with
                  status := .FAILED,
                  error_message := some m,
                  completed_at := some tEnd },
                newEvents := evs, boloMatches := ms, attempts := nbs.map (fun b => b.id),
                notifLogs := logs, statusTrace := [.PROCESSING, .FAILED] }
          | none =>
              { upload := some { u1 with
                  status := .DONE,
                  completed_at := some tEnd,
                  events_detected := evs.length },
                newEvents := evs, boloMatches := ms, attempts := nbs.map (fun b => b.id),
                notifLogs := logs, statusTrace := [.PROCESSING, .DONE] }

/-! ### Concrete fixtures used by witnesses and counterexamples -/

/-- A pending upload row as enqueued by the API layer. -/
def exUpload : Upload :=
  { id := 1, camera_id := some "cam-1", status := .PENDING, started_at := none,
    completed_at := none, events_detected := 0, error_message := none }

/-- A small valid (non-solid) 6×6×3 crop. -/
def exCrop : NpArray := .nd3 (List.replicate 6 (List.replicate 6 [1, 2, 3]))

/-- A well-formed detection with a valid crop. -/
def exDet : Detection :=
  { plate := "ABC123", normalized_plate := "ABC123", confidence := mkRat 9 10,
    bbox := some { x1 := 1, y1 := 2, x2 := 30, y2 := 20 }, frame_no := 0,
    captured_at := 3, crop := some exCrop, frame := none, camera_id := some "cam-1" }

/-- Fallback Event for `headD` in closed witness statements. -/
def exEventDefault : Event :=
  { id := 0, upload_id := 0, camera_id := none, plate := "", normalized_plate := "",
    confidence := 0, bbox := none, frame_no := 0, captured_at := 0, crop_path := none,
    review_state := .UNREVIEWED }

/-! ### Helper lemmas -/

/-- Characters in `[A-Z0-9]` are fixed points of ASCII upper-casing. -/
lemma upperChar_of_isPlateChar {c : Char} (h : isPlateChar c = true) : upperChar c = c := by
  simp only [isPlateChar, Bool.or_eq_true, Bool.and_eq_true, decide_eq_true_eq] at h
  have hn : ¬(97 ≤ c.toNat ∧ c.toNat ≤ 122) := by omega
  simp only [upperChar, if_neg hn]

/-- Every detection the adapter forwards passed the confidence threshold. -/
lemma adapter_filter_conf {t : ℚ} :
    ∀ {raw : List StreamItem} {d : Detection},
      StreamItem.det d ∈ adapter_filter t raw → t ≤ d.confidence := by
  intro raw
  induction raw with
  | nil => intro d h; simp [adapter_filter] at h
  | cons i rest ih =>
    intro d h
    cases i with
    | err m => simp [adapter_filter] at h
    | det d0 =>
      rw [show adapter_filter t (StreamItem.det d0 :: rest)
            = if t ≤ d0.confidence then StreamItem.det d0 :: adapter_filter t rest
              else adapter_filter t rest from rfl] at h
      by_cases hc : t ≤ d0.confidence
      · rw [if_pos hc] at h
        rcases List.mem_cons.mp h with h1 | h2
        · injection h1 with hd; subst hd; exact hc
        · exact ih h2
      · rw [if_neg hc] at h
        exact ih h

/-- Detections consumed before the first stream error come from the stream. -/
lemma detsUntilErr_mem :
    ∀ {items : List StreamItem} {d : Detection},
      d ∈ (detsUntilErr items).1 → StreamItem.det d ∈ items := by
  intro items
  induction items with
  | nil => intro d h; simp [detsUntilErr] at h
  | cons i rest ih =>
    intro d h
    cases i with
    | err m => simp [detsUntilErr] at h
    | det d0 =>
      rw [show (detsUntilErr (StreamItem.det d0 :: rest)).1
            = d0 :: (detsUntilErr rest).1 from rfl] at h
      rcases List.mem_cons.mp h with h1 | h2
      · subst h1; exact List.mem_cons_self _ _
      · exact List.mem_cons_of_mem _ (ih h2)

/-- Every Event committed by the loop copies the confidence of some consumed detection. -/
lemma events_for_conf {u : Upload} :
    ∀ {ds : List Detection} {n : Nat} {e : Event},
      e ∈ events_for u n ds → ∃ d ∈ ds, e.confidence = d.confidence := by
  intro ds
  induction ds with
  | nil => intro n e h; simp [events_for] at h
  | cons d rest ih =>
    intro n e h
    rw [show events_for u n (d :: rest)
          = (save_event u d n (path_for u.id n)).1 :: events_for u (n + 1) rest from rfl] at h
    rcases List.mem_cons.mp h with h1 | h2
    · subst h1; exact ⟨d, List.mem_cons_self _ _, rfl⟩
    · obtain ⟨d', hd', he⟩ := ih h2
      exact ⟨d', List.mem_cons_of_mem _ hd', he⟩

/-- The Events a successful-download run commits, independent of whether the stream
later errors out. -/
lemma process_job_newEvents_ok (u : Upload) (p : String) (raw : List StreamItem)
    (t : ℚ) (bolos : List BOLO) (now t1 t2 : Nat) (post : Nat → Bool) :
    (process_job (some u) (Except.ok p) raw t bolos now t1 t2 post).newEvents
      = events_for (mark_processing u t1) 0 (detsUntilErr (adapter_filter t raw)).1 := by
  cases h : (detsUntilErr (adapter_filter t raw)).2 <;> simp [process_job, h]

/-! ### Claim theorems -/

/-- Claim C9: canonicalization (`normalize_plate`) is idempotent, strips every
non-alphanumeric character and upper-cases the rest, e.g.
`canonicalize("ab-12 cd") == "AB12CD"`. -/
theorem C9_canonicalize_idempotent :
    (∀ s : String, normalize_plate (normalize_plate s) = normalize_plate s)
  ∧ normalize_plate "ab-12 cd" = "AB12CD" := by
  constructor
  · intro s
    show String.mk ((((s.data.map upperChar).filter isPlateChar).map upperChar).filter isPlateChar)
        = String.mk ((s.data.map upperChar).filter isPlateChar)
    have hmem : ∀ c ∈ (s.data.map upperChar).filter isPlateChar, isPlateChar c = true :=
      fun c hc => List.of_mem_filter hc
    have hfix : ((s.data.map upperChar).filter isPlateChar).map upperChar
        = (s.data.map upperChar).filter isPlateChar := by
      conv_rhs =>
        rw [show (s.data.map upperChar).filter isPlateChar
              = ((s.data.map upperChar).filter isPlateChar).map id from
            (List.map_id _).symm]
      exact List.map_congr_left (fun c hc => upperChar_of_isPlateChar (hmem c hc))
    rw [hfix, List.filter_eq_self.mpr hmem]
  · decide

/-- Rank of an upload status along the PENDING → PROCESSING → terminal order. -/
def statusRank : UploadStatus → Nat
  | .PENDING => 0
  | .PROCESSING => 1
  | .DONE => 2
  | .FAILED => 2

/-- Claim C4: within a job-processing run the statuses committed to the Upload are
strictly increasing in the PENDING → PROCESSING → {DONE, FAILED} order — in
particular a terminal status is the last one committed, and PROCESSING (or any
earlier state) is never revisited after it. -/
theorem C4_upload_status_monotone (u? : Option Upload) (dl : Except String String)
    (raw : List StreamItem) (t : ℚ) (bolos : List BOLO) (now t1 t2 : Nat)
    (post : Nat → Bool) :
    ((process_job u? dl raw t bolos now t1 t2 post).statusTrace).Pairwise
      (fun a b => statusRank a < statusRank b) := by
  cases u? with
  | none => simp [process_job]
  | some u =>
    cases dl with
    | error e => simp [process_job]; decide
    | ok p =>
      cases h : (detsUntilErr (adapter_filter t raw)).2 <;>
        · simp [process_job, h]; decide

/-- Claim C5: no Event is created from a detection whose confidence is strictly
below the adapter's configured threshold — the adapter filter discards those
before event persistence. -/
theorem C5_confidence_threshold (t : ℚ) (u? : Option Upload) (dl : Except String String)
    (raw : List StreamItem) (bolos : List BOLO) (now t1 t2 : Nat) (post : Nat → Bool)
    (e : Event) (he : e ∈ (process_job u? dl raw t bolos now t1 t2 post).newEvents) :
    t ≤ e.confidence := by
  cases u? with
  | none => simp [process_job] at he
  | some u =>
    cases dl with
    | error msg => simp [process_job] at he
    | ok p =>
      rw [process_job_newEvents_ok] at he
      obtain ⟨d, hd, hconf⟩ := events_for_conf he
      rw [hconf]
      exact adapter_filter_conf (detsUntilErr_mem hd)

set_option maxRecDepth 4000 in
theorem C5_confidence_threshold_witness :
    mkRat 7 10 ≤ ((process_job (some exUpload) (Except.ok "/tmp/v.mp4")
      [StreamItem.det exDet] (mkRat 7 10) [] 100 0 1
      (fun _ => true)).newEvents.headD exEventDefault).confidence :=
  C5_confidence_threshold (mkRat 7 10) (some exUpload) (Except.ok "/tmp/v.mp4")
    [StreamItem.det exDet] [] 100 0 1 (fun _ => true) _ (by decide)

/-- Claim C7: the outcomes of the webhook POSTs influence nothing but the
notification log lines — the committed upload row (status, `events_detected`),
the persisted Events, the watchlist matches, the attempted POSTs and the status
trace are identical for any two webhook-outcome assignments, because
`send_bolo_notification` catches every exception. -/
theorem C7_webhook_failure_isolated (u? : Option Upload) (dl : Except String String)
    (raw : List StreamItem) (t : ℚ) (bolos : List BOLO) (now t1 t2 : Nat)
    (p1 p2 : Nat → Bool) :
    (process_job u? dl raw t bolos now t1 t2 p1).upload
        = (process_job u? dl raw t bolos now t1 t2 p2).upload
  ∧ (process_job u? dl raw t bolos now t1 t2 p1).newEvents
        = (process_job u? dl raw t bolos now t1 t2 p2).newEvents
  ∧ (process_job u? dl raw t bolos now t1 t2 p1).boloMatches
        = (process_job u? dl raw t bolos now t1 t2 p2).boloMatches
  ∧ (process_job u? dl raw t bolos now t1 t2 p1).attempts
        = (process_job u? dl raw t bolos now t1 t2 p2).attempts
  ∧ (process_job u? dl raw t bolos now t1 t2 p1).statusTrace
        = (process_job u? dl raw t bolos now t1 t2 p2).statusTrace := by
  cases u? with
  | none => exact ⟨rfl, rfl, rfl, rfl, rfl⟩
  | some u =>
    cases dl with
    | error e => exact ⟨rfl, rfl, rfl, rfl, rfl⟩
    | ok p =>
      cases h : (detsUntilErr (adapter_filter t raw)).2 <;>
        · simp [process_job, h]

/-- Claim C1 (code bug): with the remote backend configured, its module importable
and the health check answering 503, `get_detector` still hands back the remote
generator (its `try/except` only guards the import), the health-check failure
surfaces at the first iteration inside `process_job`'s `try`, and the job ends
FAILED — not, as the spec intends, falling back to Mock and completing DONE. -/
theorem C1_remote_health_check_failure_fails_job :
    get_detector "remote"
        { yoloAdapterImportOk := true, yoloFfmpegImportOk := true, remoteImportOk := true }
      = ChosenBackend.remoteHttp
  ∧ ((process_job (some exUpload) (Except.ok "/tmp/video.mp4")
        (backend_stream
          (get_detector "remote"
            { yoloAdapterImportOk := true, yoloFfmpegImportOk := true, remoteImportOk := true })
          "http://inference.example" (some 503)
          [StreamItem.det exDet] [] [] [StreamItem.det exDet])
        (mkRat 7 10) [] 100 0 1 (fun _ => true)).upload.map Upload.status)
      = some UploadStatus.FAILED := by
  constructor
  · decide
  · decide

/-- Claim C8: a crop that passes the type/shape/size validation but is a solid-color
block (min == max) is accepted — the Event is created referencing the uploaded crop
path — and the solid-color condition is only flagged in the diagnostics. -/
theorem C8_solid_color_crop_accepted (u : Upload) (d : Detection) (a : NpArray)
    (eid : Nat) (p : String) (hc : d.crop = some a) (h3 : a.ndim = 3)
    (hch : a.channels = 3) (h0 : 5 ≤ a.shape0) (h1 : 5 ≤ a.shape1)
    (hsolid : a.npMin = a.npMax) :
    (save_event u d eid p).1.crop_path = some p
  ∧ CropDiag.solid_color ∈ (save_event u d eid p).2 := by
  have hcp : crop_path_for d.crop p = (some p, [CropDiag.solid_color]) := by
    rw [hc]
    show (if a.ndim ≠ 3 then ((none : Option String), [CropDiag.invalid_shape])
      else if a.channels ≠ 3 then (none, [CropDiag.invalid_shape])
      else if a.shape0 < 5 then (none, [CropDiag.too_small])
      else if a.shape1 < 5 then (none, [CropDiag.too_small])
      else if a.npMin = a.npMax then (some p, [CropDiag.solid_color])
      else (some p, [])) = (some p, [CropDiag.solid_color])
    rw [if_neg (by simp [h3]), if_neg (by simp [hch]),
        if_neg (Nat.not_lt.mpr h0), if_neg (Nat.not_lt.mpr h1), if_pos hsolid]
  constructor
  · show (crop_path_for d.crop p).1 = some p
    rw [hcp]
  · show CropDiag.solid_color ∈ (crop_path_for d.crop p).2
    rw [hcp]
    exact List.mem_singleton.mpr rfl

/-- A 5×5×3 solid-color crop. -/
def solidCrop : NpArray := .nd3 (List.replicate 5 (List.replicate 5 [4, 4, 4]))

/-- A detection carrying the solid-color crop. -/
def exDetSolid : Detection :=
  { plate := "XYZ789", normalized_plate := "XYZ789", confidence := mkRat 8 10,
    bbox := some { x1 := 0, y1 := 0, x2 := 5, y2 := 5 }, frame_no := 2,
    captured_at := 7, crop := some solidCrop, frame := none, camera_id := some "cam-1" }

set_option maxRecDepth 8000 in
theorem C8_solid_color_crop_accepted_witness :
    (save_event exUpload exDetSolid 0 "crops/1/0.jpg").1.crop_path = some "crops/1/0.jpg"
  ∧ CropDiag.solid_color ∈ (save_event exUpload exDetSolid 0 "crops/1/0.jpg").2 :=
  C8_solid_color_crop_accepted exUpload exDetSolid solidCrop 0 "crops/1/0.jpg"
    (by decide) (by decide) (by decide) (by decide) (by decide) (by decide)

/-- Filtering a mapped list by a predicate on the image has the same length as
filtering the source by the composed predicate. -/
lemma filter_map_len {α β : Type} (f : α → β) (p : β → Bool) (l : List α) :
    ((l.map f).filter p).length = (l.filter (fun x => p (f x))).length := by
  induction l with
  | nil => rfl
  | cons x xs ih =>
    by_cases h : p (f x) = true
    · simp [List.filter_cons, h, ih]
    · simp [List.filter_cons, h, ih]

/-- In a list whose image under `f` has no duplicates, exactly one element shares
`f`-value with a member `b`. -/
lemma filter_key_eq_one {α β : Type} [DecidableEq β] (f : α → β) :
    ∀ (l : List α) (b : α), (l.map f).Nodup → b ∈ l →
      (l.filter (fun x => f x == f b)).length = 1 := by
  intro l
  induction l with
  | nil => intro b _ hb; cases hb
  | cons x xs ih =>
    intro b hn hb
    rw [List.map_cons, List.nodup_cons] at hn
    obtain ⟨hx, hxs⟩ := hn
    rcases List.mem_cons.mp hb with rfl | hb'
    · have hnil : xs.filter (fun y => f y == f b) = [] := by
        apply List.filter_eq_nil_iff.mpr
        intro y hy hfy
        rw [beq_iff_eq] at hfy
        exact hx (hfy ▸ List.mem_map_of_mem f hy)
      simp [List.filter_cons, hnil]
    · have hfx : (f x == f b) = false := by
        rw [beq_eq_false_iff_ne]
        intro hfeq
        exact hx (hfeq ▸ List.mem_map_of_mem f hb')
      simp only [List.filter_cons, hfx, Bool.false_eq_true, if_false]
      exact ih b hxs hb'

/-- No element of the list has `f`-value `v`: the key-filter is empty. -/
lemma filter_key_eq_zero {α β : Type} [DecidableEq β] (f : α → β) (l : List α) (v : β)
    (h : ∀ x ∈ l, f x ≠ v) : (l.filter (fun x => f x == v)).length = 0 := by
  rw [List.length_eq_zero]
  apply List.filter_eq_nil_iff.mpr
  intro x hx hxv
  rw [beq_iff_eq] at hxv
  exact h x hx hxv

/-- Membership in the matched-entry list of `check_bolos`. -/
lemma mem_bolos_matched {bolos : List BOLO} {e : Event} {now : Nat} {b : BOLO} :
    b ∈ bolos_matched bolos e now ↔
      b ∈ bolos ∧ b.active = true ∧ bolo_expired b now = false
        ∧ regex_search b.plate_pattern e.normalized_plate = true := by
  unfold bolos_matched
  simp only [List.mem_filter, Bool.not_eq_true']
  tauto

/-- The matched-entry list is a sublist of the queried entries. -/
lemma bolos_matched_sublist (bolos : List BOLO) (e : Event) (now : Nat) :
    List.Sublist (bolos_matched bolos e now) bolos := by
  unfold bolos_matched
  exact ((List.filter_sublist _).trans (List.filter_sublist _)).trans (List.filter_sublist _)

/-- Claim C6: for an active, unexpired watchlist entry whose pattern matches the
event's normalized plate (entry ids pairwise distinct), the matching pass creates
exactly one `BOLOMatch` for it, and attempts the webhook POST exactly when the
entry defines a (truthy) `notification_webhook`; an expired entry yields no match
even if its pattern would have matched. -/
theorem C6_watchlist_match_and_expiry (bolos : List BOLO) (e : Event) (now : Nat)
    (b : BOLO) (hmem : b ∈ bolos) (hact : b.active = true)
    (hexp : bolo_expired b now = false)
    (hmatch : regex_search b.plate_pattern e.normalized_plate = true)
    (hids : (bolos.map BOLO.id).Nodup) :
    ((check_bolos bolos e now).1.filter (fun m => m.bolo_id == b.id)).length = 1
  ∧ ((check_bolos bolos e now).2.filter (fun nb => nb.id == b.id)).length
      = (if webhook_set b then 1 else 0)
  ∧ (∀ b' ∈ bolos, bolo_expired b' now = true →
      ((check_bolos bolos e now).1.filter (fun m => m.bolo_id == b'.id)).length = 0) := by
  have hmNodup : ((bolos_matched bolos e now).map BOLO.id).Nodup :=
    hids.sublist ((bolos_matched_sublist bolos e now).map BOLO.id)
  have hbm : b ∈ bolos_matched bolos e now :=
    mem_bolos_matched.mpr ⟨hmem, hact, hexp, hmatch⟩
  have hinj := List.inj_on_of_nodup_map hids
  refine ⟨?_, ?_, ?_⟩
  · show (((bolos_matched bolos e now).map
        (fun b' => ({ bolo_id := b'.id, event_id := e.id } : BOLOMatch))).filter
        (fun m => m.bolo_id == b.id)).length = 1
    rw [filter_map_len]
    exact filter_key_eq_one BOLO.id (bolos_matched bolos e now) b hmNodup hbm
  · show (((bolos_matched bolos e now).filter webhook_set).filter
        (fun nb => nb.id == b.id)).length = (if webhook_set b then 1 else 0)
    by_cases hw : webhook_set b = true
    · rw [if_pos hw]
      have hsub2 : List.Sublist ((bolos_matched bolos e now).filter webhook_set)
          (bolos_matched bolos e now) := List.filter_sublist _
      have hn2 : (((bolos_matched bolos e now).filter webhook_set).map BOLO.id).Nodup :=
        hmNodup.sublist (hsub2.map BOLO.id)
      exact filter_key_eq_one BOLO.id _ b hn2 (List.mem_filter.mpr ⟨hbm, hw⟩)
    · rw [if_neg hw]
      apply filter_key_eq_zero
      intro x hxf hxid
      have hxm := List.mem_filter.mp hxf
      have hxb : x = b := by
        apply hinj (List.Sublist.mem hxm.1 (bolos_matched_sublist bolos e now)) hmem hxid
      exact hw (hxb ▸ hxm.2)
  · intro b' hb' hexp'
    show (((bolos_matched bolos e now).map
        (fun x => ({ bolo_id := x.id, event_id := e.id } : BOLOMatch))).filter
        (fun m => m.bolo_id == b'.id)).length = 0
    rw [filter_map_len]
    apply filter_key_eq_zero
    intro x hxm hxid
    have hxprops := mem_bolos_matched.mp hxm
    have hxb : x = b' := hinj hxprops.1 hb' hxid
    have hfalse : bolo_expired b' now = false := hxb ▸ hxprops.2.2.1
    rw [hexp'] at hfalse
    exact absurd hfalse (by decide)

/-- An active, unexpired entry whose pattern matches the example event. -/
def exBoloA : BOLO :=
  { id := 5, plate_pattern := "ABC.*", active := true, expires_at := none,
    notification_webhook := some "http://hook.example/a" }

/-- An entry expired before `now = 100` whose pattern would also match. -/
def exBoloExpired : BOLO :=
  { id := 6, plate_pattern := "ABC.*", active := true, expires_at := some 50,
    notification_webhook := some "http://hook.example/b" }

/-- The example persisted event (`normalized_plate = "ABC123"`). -/
def exEvent : Event :=
  { id := 0, upload_id := 1, camera_id := some "cam-1", plate := "ABC123",
    normalized_plate := "ABC123", confidence := mkRat 9 10,
    bbox := some { x1 := 1, y1 := 2, x2 := 30, y2 := 20 }, frame_no := 0,
    captured_at := 3, crop_path := some "crops/1/0.jpg", review_state := .UNREVIEWED }

theorem C6_watchlist_match_and_expiry_witness :
    ((check_bolos [exBoloA, exBoloExpired] exEvent 100).1.filter
        (fun m => m.bolo_id == exBoloA.id)).length = 1
  ∧ ((check_bolos [exBoloA, exBoloExpired] exEvent 100).2.filter
        (fun nb => nb.id == exBoloA.id)).length = (if webhook_set exBoloA then 1 else 0)
  ∧ ((check_bolos [exBoloA, exBoloExpired] exEvent 100).1.filter
        (fun m => m.bolo_id == exBoloExpired.id)).length = 0 := by
  refine ⟨?_, ?_, ?_⟩
  · exact (C6_watchlist_match_and_expiry [exBoloA, exBoloExpired] exEvent 100 exBoloA
      (by decide) (by decide) (by decide) (by decide) (by decide)).1
  · exact (C6_watchlist_match_and_expiry [exBoloA, exBoloExpired] exEvent 100 exBoloA
      (by decide) (by decide) (by decide) (by decide) (by decide)).2.1
  · exact (C6_watchlist_match_and_expiry [exBoloA, exBoloExpired] exEvent 100 exBoloA
      (by decide) (by decide) (by decide) (by decide) (by decide)).2.2 exBoloExpired
      (by decide) (by decide)

/-- The adapter forwards only detections when fed only detections. -/
lemma adapter_filter_all_dets (t : ℚ) :
    ∀ (l : List StreamItem), (∀ i ∈ l, ∃ d, i = StreamItem.det d) →
      ∀ i ∈ adapter_filter t l, ∃ d, i = StreamItem.det d := by
  intro l
  induction l with
  | nil => intro _ i hi; simp [adapter_filter] at hi
  | cons x xs ih =>
    intro hall i hi
    obtain ⟨d0, rfl⟩ := hall x (List.mem_cons_self _ _)
    rw [show adapter_filter t (StreamItem.det d0 :: xs)
          = if t ≤ d0.confidence then StreamItem.det d0 :: adapter_filter t xs
            else adapter_filter t xs from rfl] at hi
    have hxs : ∀ j ∈ xs, ∃ d, j = StreamItem.det d :=
      fun j hj => hall j (List.mem_cons_of_mem _ hj)
    by_cases hc : t ≤ d0.confidence
    · rw [if_pos hc] at hi
      rcases List.mem_cons.mp hi with rfl | hi'
      · exact ⟨d0, rfl⟩
      · exact ih hxs i hi'
    · rw [if_neg hc] at hi
      exact ih hxs i hi

/-- Running the adapter over an all-detections prefix followed by a raising
generator step truncates exactly at the error. -/
lemma adapter_filter_append_err (t : ℚ) (msg : String) :
    ∀ (l rest : List StreamItem), (∀ i ∈ l, ∃ d, i = StreamItem.det d) →
      adapter_filter t (l ++ StreamItem.err msg :: rest)
        = adapter_filter t l ++ [StreamItem.err msg] := by
  intro l
  induction l with
  | nil => intro rest _; simp [adapter_filter]
  | cons x xs ih =>
    intro rest hall
    obtain ⟨d0, rfl⟩ := hall x (List.mem_cons_self _ _)
    have hxs : ∀ j ∈ xs, ∃ d, j = StreamItem.det d :=
      fun j hj => hall j (List.mem_cons_of_mem _ hj)
    rw [List.cons_append,
        show adapter_filter t (StreamItem.det d0 :: (xs ++ StreamItem.err msg :: rest))
          = if t ≤ d0.confidence
            then StreamItem.det d0 :: adapter_filter t (xs ++ StreamItem.err msg :: rest)
            else adapter_filter t (xs ++ StreamItem.err msg :: rest) from rfl,
        show adapter_filter t (StreamItem.det d0 :: xs)
          = if t ≤ d0.confidence then StreamItem.det d0 :: adapter_filter t xs
            else adapter_filter t xs from rfl]
    by_cases hc : t ≤ d0.confidence
    · rw [if_pos hc, if_pos hc, ih rest hxs, List.cons_append]
    · rw [if_neg hc, if_neg hc, ih rest hxs]

/-- A stream of detections only is consumed to exhaustion without error. -/
lemma detsUntilErr_no_err :
    ∀ (l : List StreamItem), (∀ i ∈ l, ∃ d, i = StreamItem.det d) →
      (detsUntilErr l).2 = none := by
  intro l
  induction l with
  | nil => intro _; rfl
  | cons x xs ih =>
    intro hall
    obtain ⟨d0, rfl⟩ := hall x (List.mem_cons_self _ _)
    show (detsUntilErr xs).2 = none
    exact ih (fun j hj => hall j (List.mem_cons_of_mem _ hj))

/-- Appending a raising step to an all-detections stream: the same detections are
consumed and the error is reported. -/
lemma detsUntilErr_append_err (msg : String) :
    ∀ (l : List StreamItem), (∀ i ∈ l, ∃ d, i = StreamItem.det d) →
      detsUntilErr (l ++ [StreamItem.err msg])
        = ((detsUntilErr l).1, some msg) := by
  intro l
  induction l with
  | nil => intro _; rfl
  | cons x xs ih =>
    intro hall
    obtain ⟨d0, rfl⟩ := hall x (List.mem_cons_self _ _)
    have hxs : ∀ j ∈ xs, ∃ d, j = StreamItem.det d :=
      fun j hj => hall j (List.mem_cons_of_mem _ hj)
    show (d0 :: (detsUntilErr (xs ++ [StreamItem.err msg])).1,
          (detsUntilErr (xs ++ [StreamItem.err msg])).2)
        = (d0 :: (detsUntilErr xs).1, some msg)
    rw [ih hxs]

/-- Claim C10: job failure is not atomic — when the detection stream raises after
some detections, the job is marked FAILED, but every Event committed before the
exception is exactly the set a run over just the prefix would have committed
(individual commits, never rolled back), and `events_detected` is written only in
the DONE branch: the FAILED upload keeps its pre-run value, while the successful
prefix run records the event count. -/
theorem C10_partial_failure_keeps_events (u : Upload) (p : String) (t : ℚ)
    (bolos : List BOLO) (now t1 t2 : Nat) (post : Nat → Bool)
    (pre rest : List StreamItem) (msg : String)
    (hpre : ∀ i ∈ pre, ∃ d, i = StreamItem.det d) :
    ((process_job (some u) (Except.ok p) (pre ++ StreamItem.err msg :: rest)
        t bolos now t1 t2 post).upload.map Upload.status = some UploadStatus.FAILED)
  ∧ ((process_job (some u) (Except.ok p) (pre ++ StreamItem.err msg :: rest)
        t bolos now t1 t2 post).newEvents
      = (process_job (some u) (Except.ok p) pre t bolos now t1 t2 post).newEvents)
  ∧ ((process_job (some u) (Except.ok p) (pre ++ StreamItem.err msg :: rest)
        t bolos now t1 t2 post).upload.map Upload.events_detected
      = some u.events_detected)
  ∧ ((process_job (some u) (Except.ok p) pre t bolos now t1 t2 post).upload.map
        Upload.events_detected
      = some (process_job (some u) (Except.ok p) pre t bolos now t1 t2
          post).newEvents.length) := by
  have hAF := adapter_filter_append_err t msg pre rest hpre
  have hAD := adapter_filter_all_dets t pre hpre
  have hDU := detsUntilErr_append_err msg (adapter_filter t pre) hAD
  have hS2 := detsUntilErr_no_err (adapter_filter t pre) hAD
  refine ⟨?_, ?_, ?_, ?_⟩
  · simp [process_job, hAF, hDU]
  · rw [process_job_newEvents_ok, process_job_newEvents_ok, hAF, hDU]
  · simp [process_job, hAF, hDU, mark_processing]
  · simp [process_job, hS2, mark_processing]

theorem C10_partial_failure_keeps_events_witness :
    ((process_job (some exUpload) (Except.ok "/tmp/v.mp4")
        ([StreamItem.det exDet] ++ StreamItem.err "boom" :: []) (mkRat 7 10) [] 100 0 1
        (fun _ => true)).upload.map Upload.status = some UploadStatus.FAILED)
  ∧ ((process_job (some exUpload) (Except.ok "/tmp/v.mp4")
        ([StreamItem.det exDet] ++ StreamItem.err "boom" :: []) (mkRat 7 10) [] 100 0 1
        (fun _ => true)).newEvents
      = (process_job (some exUpload) (Except.ok "/tmp/v.mp4") [StreamItem.det exDet]
          (mkRat 7 10) [] 100 0 1 (fun _ => true)).newEvents)
  ∧ ((process_job (some exUpload) (Except.ok "/tmp/v.mp4")
        ([StreamItem.det exDet] ++ StreamItem.err "boom" :: []) (mkRat 7 10) [] 100 0 1
        (fun _ => true)).upload.map Upload.events_detected = some exUpload.events_detected)
  ∧ ((process_job (some exUpload) (Except.ok "/tmp/v.mp4") [StreamItem.det exDet]
        (mkRat 7 10) [] 100 0 1 (fun _ => true)).upload.map Upload.events_detected
      = some (process_job (some exUpload) (Except.ok "/tmp/v.mp4") [StreamItem.det exDet]
          (mkRat 7 10) [] 100 0 1 (fun _ => true)).newEvents.length) :=
  C10_partial_failure_keeps_events exUpload "/tmp/v.mp4" (mkRat 7 10) [] 100 0 1
    (fun _ => true) [StreamItem.det exDet] [] "boom"
    (by intro i hi; rw [List.mem_singleton] at hi; exact ⟨exDet, hi⟩)

/-- A grayscale (2-D) decoded frame, as PIL yields for a grayscale JPEG. -/
def c2Frame : NpArray := .nd2 (List.replicate 25 (List.replicate 25 7))

/-- A YOLO box passing the local backend's confidence and minimum-size filters. -/
def c2Box : YoloBox := { x1 := 0, y1 := 0, x2 := 24, y2 := 12, conf := mkRat 9 10 }

/-- The local backend's default configuration (DETECT_CONFIDENCE 0.30, minimum box
20×10). -/
def c2Cfg : YoloFfmpegCfg :=
  { confidence_threshold := mkRat 3 10, min_box_width := 20, min_box_height := 10 }

/-- What the yolo_ffmpeg backend yields on the grayscale frame: one detection whose
crop is 2-D. -/
def c2Dets : List Detection :=
  yolo_process_frame c2Cfg c2Frame [c2Box] (fun _ => []) 0 (some "cam-1") 0

set_option maxRecDepth 40000 in
/-- Claim C2 counterexample: the (non-Remote) yolo_ffmpeg backend yields a detection
whose crop fails `save_event`'s validation (not a 3-channel array), yet the worker
persists an Event for it — with `crop_path = None` — instead of dropping it. -/
theorem C2_counterexample_cropless_event_persisted :
    (c2Dets.map (fun d => (crop_path_for d.crop "crops/x.jpg").1)) = [none]
  ∧ ((process_job (some exUpload) (Except.ok "/tmp/v.mp4") (c2Dets.map StreamItem.det)
        (mkRat 3 10) [] 100 0 1 (fun _ => true)).newEvents.map Event.crop_path)
      = [none] := by
  constructor
  · decide
  · decide

/-- Claim C2 (amended): the Mock backend drops any detection whose crop fails
validation before yielding it (every yielded detection carries the successfully
extracted, validated crop of its frame), but event persistence itself does not
drop: a detection reaching `save_event` with an invalid crop is still persisted,
as an Event with `crop_path = None`. -/
theorem C2_amended_mock_drops_persistence_keeps :
    (∀ plans cam d, d ∈ mock_process_video plans cam →
        d.frame.isSome = true ∧ d.crop.isSome = true
        ∧ extract_real_crop (d.frame.getD (NpArray.nd2 []))
            (d.bbox.getD { x1 := 0, y1 := 0, x2 := 0, y2 := 0 }) = d.crop)
  ∧ (∀ (u : Upload) (d : Detection) (eid : Nat) (pth : String),
        (crop_path_for d.crop pth).1 = none →
        (save_event u d eid pth).1.crop_path = none
        ∧ (events_for u eid [d]).length = 1) := by
  constructor
  · intro plans cam d hd
    obtain ⟨p, hp, hstep⟩ := List.mem_filterMap.mp hd
    unfold mock_step at hstep
    split at hstep
    · exact absurd hstep (by simp)
    · split at hstep
      · exact absurd hstep (by simp)
      · rename_i f hf c hc
        obtain rfl := Option.some.inj hstep
        exact ⟨rfl, rfl, hc⟩
  · intro u d eid pth hbad
    constructor
    · show (crop_path_for d.crop pth).1 = none
      exact hbad
    · rfl

/-- A rectangular 20×20×3 frame for the mock witness. -/
def c2MockFrame : NpArray := .nd3 (List.replicate 20 (List.replicate 20 [5, 6, 7]))

/-- A planned mock iteration whose crop extraction succeeds. -/
def c2MockPlan : MockPlan :=
  { plate := "ABC123", confidence := mkRat 8 10, frame := some c2MockFrame,
    bbox := { x1 := 2, y1 := 3, x2 := 14, y2 := 12 }, frame_no := 0, captured_at := 9 }

/-- The detection the mock backend yields for that plan. -/
def c2MockDet : Detection := (mock_process_video [c2MockPlan] (some "cam-1")).headD exDet

/-- The invalid-crop detection of the counterexample, fed to persistence. -/
def c2BadDet : Detection := c2Dets.headD exDet

set_option maxRecDepth 40000 in
theorem C2_amended_mock_drops_persistence_keeps_witness :
    (c2MockDet.frame.isSome = true ∧ c2MockDet.crop.isSome = true
      ∧ extract_real_crop (c2MockDet.frame.getD (NpArray.nd2 []))
          (c2MockDet.bbox.getD { x1 := 0, y1 := 0, x2 := 0, y2 := 0 }) = c2MockDet.crop)
  ∧ ((save_event exUpload c2BadDet 0 "crops/1/0.jpg").1.crop_path = none
      ∧ (events_for exUpload 0 [c2BadDet]).length = 1) :=
  ⟨C2_amended_mock_drops_persistence_keeps.1 [c2MockPlan] (some "cam-1") c2MockDet
      (by decide),
   C2_amended_mock_drops_persistence_keeps.2 exUpload c2BadDet 0 "crops/1/0.jpg"
      (by decide)⟩

/-- A remote-service detection entry carrying a non-canonical `normalized_plate`. -/
def c3RemoteDD : RemoteDetData :=
  { plate := some "AB-12", confidence := some (mkRat 9 10), bbox := none,
    normalized_plate := some "ab-12" }

set_option maxRecDepth 16000 in
/-- Claim C3 counterexample: the remote backend stores a service-supplied
`normalized_plate` verbatim (`detection_data.get("normalized_plate") or …`), so a
persisted Event can have `normalized_plate ≠ canonicalize(plate)`. -/
theorem C3_counterexample_remote_normalized_trusted :
    ((process_job (some exUpload) (Except.ok "/tmp/v.mp4")
        [StreamItem.det (remote_mk_detection c3RemoteDD 0 5 (some "cam-1"))]
        (mkRat 1 2) [] 100 0 1 (fun _ => true)).newEvents.map
      (fun e => e.normalized_plate == normalize_plate e.plate)) = [false] := by
  decide

/-- Claim C3 (amended): every Event persisted from a Mock or yolo_ffmpeg detection
satisfies `normalized_plate = canonicalize(plate)`; for the Remote-HTTP backend the
invariant holds whenever the service omits `normalized_plate` (or sends an empty
one) — a non-empty service value is stored verbatim, without re-canonicalization.
Persistence copies both fields unchanged, so the invariant transfers to the Event
exactly when it holds of the detection. -/
theorem C3_amended_normalized_plate_invariant :
    (∀ plans cam d, d ∈ mock_process_video plans cam →
        d.normalized_plate = normalize_plate d.plate)
  ∧ (∀ cfg frame boxes reader fn cam now d,
        d ∈ yolo_process_frame cfg frame boxes reader fn cam now →
        d.normalized_plate = normalize_plate d.plate)
  ∧ (∀ dd fi now cam, (dd.normalized_plate = none ∨ dd.normalized_plate = some "") →
        (remote_mk_detection dd fi now cam).normalized_plate
          = normalize_plate (remote_mk_detection dd fi now cam).plate)
  ∧ (∀ (u : Upload) (d : Detection) (eid : Nat) (pth : String),
        (save_event u d eid pth).1.normalized_plate = d.normalized_plate
        ∧ (save_event u d eid pth).1.plate = d.plate) := by
  refine ⟨?_, ?_, ?_, ?_⟩
  · intro plans cam d hd
    obtain ⟨p, hp, hstep⟩ := List.mem_filterMap.mp hd
    unfold mock_step at hstep
    split at hstep
    · exact absurd hstep (by simp)
    · split at hstep
      · exact absurd hstep (by simp)
      · obtain rfl := Option.some.inj hstep
        rfl
  · intro cfg frame boxes reader fn cam now d hd
    obtain ⟨box, hb, hstep⟩ := List.mem_filterMap.mp hd
    unfold yolo_det_of_box at hstep
    split at hstep
    · exact absurd hstep (by simp)
    · split at hstep
      · exact absurd hstep (by simp)
      · dsimp only at hstep
        split at hstep
        · exact absurd hstep (by simp)
        · obtain rfl := Option.some.inj hstep
          rfl
  · intro dd fi now cam h
    rcases h with h | h <;> simp [remote_mk_detection, h]
  · intro u d eid pth
    exact ⟨rfl, rfl⟩

set_option maxRecDepth 40000 in
theorem C3_amended_normalized_plate_invariant_witness :
    (c2MockDet.normalized_plate = normalize_plate c2MockDet.plate)
  ∧ (c2BadDet.normalized_plate = normalize_plate c2BadDet.plate)
  ∧ ((remote_mk_detection
        { plate := some "AB-12", confidence := some (mkRat 9 10), bbox := none,
          normalized_plate := none } 0 5 (some "cam-1")).normalized_plate
      = normalize_plate (remote_mk_detection
        { plate := some "AB-12", confidence := some (mkRat 9 10), bbox := none,
          normalized_plate := none } 0 5 (some "cam-1")).plate)
  ∧ ((save_event exUpload exDet 0 "crops/1/0.jpg").1.normalized_plate
        = exDet.normalized_plate
      ∧ (save_event exUpload exDet 0 "crops/1/0.jpg").1.plate = exDet.plate) :=
  ⟨C3_amended_normalized_plate_invariant.1 [c2MockPlan] (some "cam-1") c2MockDet
      (by decide),
   C3_amended_normalized_plate_invariant.2.1 c2Cfg c2Frame [c2Box] (fun _ => [])
      0 (some "cam-1") 0 c2BadDet (by decide),
   C3_amended_normalized_plate_invariant.2.2.1
      { plate := some "AB-12", confidence := some (mkRat 9 10), bbox := none,
        normalized_plate := none } 0 5 (some "cam-1") (Or.inl rfl),
   C3_amended_normalized_plate_invariant.2.2.2 exUpload exDet 0 "crops/1/0.jpg"⟩

end ANPR

